import Mathlib

/-!
Verification of the daytona workspace-provisioning core against its
natural-language specification.

The Go sources are shallowly embedded as pure Lean functions:
stateful code becomes explicit state passing, fallible code returns
Except/Option, and external collaborators (docker API, registry pulls,
builder-type detection, key-value flag parsing) become oracle
parameters so that the control flow of the embedded functions is
exactly the control flow of the source.
-/

namespace Daytona

/-! ## SQLite connection memoization (pkg/db/connection.go) -/

/-- Model of a gorm database handle.  The handle remembers the path it
was opened at, which lets theorems talk about which argument an open
actually used. -/
structure GormDB where
  openedAt : String
deriving DecidableEq

/-- Embedding of GetSQLiteConnection.  The Go function reads and writes
the package-global _db; here that global is passed in and returned
explicitly.  gorm.Open is an oracle openOk (false = open fails, in
which case the Go code panics, modelled as none).  The returned pair is
(returned handle, new value of the _db global). -/
def GetSQLiteConnection (openOk : String → Bool) (dbPath : String)
    (db0 : Option GormDB) : Option (GormDB × Option GormDB) :=
  match db0 with
  | some db => some (db, some db)
  | none =>
    if openOk dbPath then some (⟨dbPath⟩, some ⟨dbPath⟩) else none

/-! ## Workspace create flags (pkg/cmd/workspace/create/creation_data.go) -/

/-- Modelled from the repository's views_util build-choice constants,
which are not among the provided sources; only their identity as
distinct comparison keys matters to the embedded control flow. -/
def DEVCONTAINER : String := "devcontainer"

/-- Modelled from the repository's views_util build-choice constants,
which are not among the provided sources. -/
def NONE_BUILD_CHOICE : String := "none"

/-- Modelled from the repository's create.DEVCONTAINER_FILEPATH
constant, which is not among the provided sources. -/
def DEVCONTAINER_FILEPATH : String := ".devcontainer/devcontainer.json"

structure DevcontainerConfig where
  filePath : String
deriving DecidableEq

structure BuildConfig where
  devcontainer : Option DevcontainerConfig
deriving DecidableEq

/-- The subset of cmd_common.WorkspaceConfigurationFlags read by
GetCreateWorkspaceDtoFromFlags.  The Go fields are pointers that the
function dereferences unconditionally; they are modelled as plain
values. -/
structure WorkspaceConfigurationFlags where
  builder : String
  devcontainerPath : String
  customImage : String
  customImageUser : String
  gitProviderConfig : Option String
  envVars : Option (List String)
  labels : Option (List String)

structure CreateWorkspaceDTO where
  gitProviderConfigId : Option String
  buildConfig : Option BuildConfig
  image : Option String
  user : Option String
  envVars : List (String × String)
  labels : List (String × String)
deriving DecidableEq

/-- Embedding of GetCreateWorkspaceDtoFromFlags.  cmd_common.MapKeyValue
is not among the provided sources and is passed as the oracle
mapKeyValue. -/
def GetCreateWorkspaceDtoFromFlags
    (mapKeyValue : List String → Except String (List (String × String)))
    (flags : WorkspaceConfigurationFlags) : Except String CreateWorkspaceDTO :=
  let workspace0 : CreateWorkspaceDTO :=
    { gitProviderConfigId := flags.gitProviderConfig
      buildConfig := some { devcontainer := none }
      image := none
      user := none
      envVars := []
      labels := [] }
  let workspace1 :=
    if flags.builder = DEVCONTAINER ∨ flags.devcontainerPath ≠ "" then
      let devcontainerFilePath :=
        if flags.devcontainerPath ≠ "" then flags.devcontainerPath
        else DEVCONTAINER_FILEPATH
      { workspace0 with
          buildConfig := some { devcontainer := some { filePath := devcontainerFilePath } } }
    else workspace0
  let workspace2 :=
    if flags.builder = NONE_BUILD_CHOICE ∨ flags.customImage ≠ "" ∨ flags.customImageUser ≠ "" then
      let w := { workspace1 with buildConfig := none }
      if flags.customImage ≠ "" ∨ flags.customImageUser ≠ "" then
        { w with image := some flags.customImage, user := some flags.customImageUser }
      else w
    else workspace1
  let envVarsRes : Except String (List (String × String)) :=
    match flags.envVars with
    | some vs => mapKeyValue vs
    | none => Except.ok []
  match envVarsRes with
  | Except.error e => Except.error e
  | Except.ok envVars =>
    let labelsRes : Except String (List (String × String)) :=
      match flags.labels with
      | some vs => mapKeyValue vs
      | none => Except.ok []
    match labelsRes with
    | Except.error e => Except.error e
    | Except.ok labels =>
      Except.ok { workspace2 with envVars := envVars, labels := labels }

/-! ## Workspace Service Find / Delete / ForceDelete

The Workspace Service implementation is not among the provided sources;
only its test (pkg/server/workspaces/service_test.go) is.  The service
operations the claims need are therefore modelled from the spec. -/

structure WorkspaceRow where
  id : String
  name : String
  deleted : Bool
deriving DecidableEq

inductive JobAction
  | create
  | start
  | stop
  | delete
deriving DecidableEq

structure Job where
  resourceId : String
  action : JobAction
deriving DecidableEq

structure ServiceState where
  rows : List WorkspaceRow
  jobs : List Job
  revokedKeys : List String
deriving DecidableEq

inductive ServiceError
  | notFoundError
  | deletedError
  | revokeFailed
deriving DecidableEq

/-- Modelled from the spec: the Workspace Service Find (the service code
is not among the provided sources).  Per section 4.1 and section 7, a
soft-deleted workspace reports Deleted and a never-existing id reports
NotFound; per the ForceDeleteWorkspace test, Find after the row is
purged still reports Deleted, so an absent row with a recorded delete
Job reports Deleted rather than NotFound. -/
def Find (st : ServiceState) (id : String) : Except ServiceError WorkspaceRow :=
  match st.rows.find? (fun r => r.id = id) with
  | some r => if r.deleted then Except.error ServiceError.deletedError else Except.ok r
  | none =>
    if st.jobs.any (fun j => j.resourceId = id ∧ j.action = JobAction.delete) then
      Except.error ServiceError.deletedError
    else
      Except.error ServiceError.notFoundError

/-- Modelled from the spec: Delete soft-deletes (the service code is not
among the provided sources): revokes the API key, marks the entity
deleted, and enqueues a delete Job. -/
def Delete (st : ServiceState) (id : String) : Except ServiceError ServiceState :=
  match st.rows.find? (fun r => r.id = id) with
  | none => Except.error ServiceError.notFoundError
  | some _ =>
    Except.ok
      { rows := st.rows.map (fun r => if r.id = id then { r with deleted := true } else r)
        jobs := st.jobs ++ [⟨id, JobAction.delete⟩]
        revokedKeys := st.revokedKeys ++ [id] }

/-- Outcome of the best-effort API-key revocation performed by
ForceDelete, supplied by the injected DeleteApiKey collaborator. -/
inductive RevokeResult
  | ok
  | alreadyRevoked
  | failed (msg : String)
deriving DecidableEq

/-- Modelled from the spec: ForceDelete hard-deletes regardless of
current reported state (the service code is not among the provided
sources): best-effort API-key revocation where errors other than
already-revoked propagate, then a delete Job is enqueued and the Store
row is purged. -/
def ForceDelete (st : ServiceState) (id : String) (revoke : RevokeResult) :
    Except ServiceError ServiceState :=
  match revoke with
  | RevokeResult.failed _ => Except.error ServiceError.revokeFailed
  | _ =>
    Except.ok
      { rows := st.rows.filter (fun r => r.id ≠ id)
        jobs := st.jobs ++ [⟨id, JobAction.delete⟩]
        revokedKeys := st.revokedKeys ++ [id] }

/-! ## UID/GID reconciliation (docker CreateWorkspace source, UPDATE_UID_GID_SCRIPT)

The shell script UPDATE_UID_GID_SCRIPT is embedded over a record model
of /etc/passwd and /etc/group lines.  UID and GID values stay strings,
exactly as the shell compares them.  A sed-driven eval assigns once per
matching line, so with several matching lines the last assignment wins;
the lookups below therefore take the last matching entry.  The final
chown of the home folder is filesystem state outside this model. -/

structure PasswdEntry where
  name : String
  uid : String
  gid : String
  home : String
deriving DecidableEq

structure GroupEntry where
  name : String
  gid : String
deriving DecidableEq

structure ScriptResult where
  echoes : List String
  passwd : List PasswdEntry
  group : List GroupEntry
deriving DecidableEq

/-- Semantics of the UPDATE_UID_GID_SCRIPT shell constant, run with
environment REMOTE_USER / NEW_UID / NEW_GID against the container's
/etc/passwd and /etc/group. -/
def runUpdateUidGidScript (remoteUser newUid newGid : String)
    (passwd : List PasswdEntry) (group : List GroupEntry) : ScriptResult :=
  let remoteLast := (passwd.filter (fun e => e.name = remoteUser)).getLast?
  let oldUid := (remoteLast.map PasswdEntry.uid).getD ""
  let oldGid := (remoteLast.map PasswdEntry.gid).getD ""
  let existingUser :=
    ((passwd.filter (fun e => e.uid = newUid)).getLast?.map PasswdEntry.name).getD ""
  let existingGroup :=
    ((group.filter (fun g => g.gid = newGid)).getLast?.map GroupEntry.name).getD ""
  if oldUid = "" then
    ⟨["Remote user not found in /etc/passwd (" ++ remoteUser ++ ")."], passwd, group⟩
  else if oldUid = newUid ∧ oldGid = newGid then
    ⟨["UIDs and GIDs are the same (" ++ newUid ++ ":" ++ newGid ++ ")."], passwd, group⟩
  else if oldUid ≠ newUid ∧ existingUser ≠ "" then
    ⟨["User with UID exists (" ++ existingUser ++ "=" ++ newUid ++ ")."], passwd, group⟩
  else
    let gidCollision := oldGid ≠ newGid ∧ existingGroup ≠ ""
    let collisionEchoes :=
      if gidCollision then
        ["Group with GID exists (" ++ existingGroup ++ "=" ++ newGid ++ ")."]
      else []
    let finalGid := if gidCollision then oldGid else newGid
    let passwd2 := passwd.map
      (fun e => if e.name = remoteUser then { e with uid := newUid, gid := finalGid } else e)
    let group2 :=
      if oldGid ≠ finalGid then
        group.map (fun g => if g.gid = oldGid then { g with gid := finalGid } else g)
      else group
    ⟨collisionEchoes ++
       ["Updating UID:GID from " ++ oldUid ++ ":" ++ oldGid ++ " to " ++
          newUid ++ ":" ++ finalGid ++ "."],
     passwd2, group2⟩

structure UidGidResult where
  containerUser : String
  scriptRan : Bool
  passwd : List PasswdEntry
  group : List GroupEntry
  echoes : List String
deriving DecidableEq

/-- Embedding of updateContainerUserUidGid.  The host (or remote-shell)
uid and gid arrive as inputs newUid / newGid; the container user starts
as daytona, becomes root exactly for the (0,0) mapping, and the patch
script runs only for a non-root container user. -/
def updateContainerUserUidGid (newUid newGid : String)
    (passwd : List PasswdEntry) (group : List GroupEntry) : UidGidResult :=
  let containerUser := if newUid = "0" ∧ newGid = "0" then "root" else "daytona"
  if containerUser ≠ "root" then
    let r := runUpdateUidGidScript containerUser newUid newGid passwd group
    ⟨containerUser, true, r.passwd, r.group, r.echoes⟩
  else
    ⟨containerUser, false, passwd, group, []⟩

/-! ## Repository clone and log streaming (docker cloneWorkspaceRepository) -/

/-- Outcome trace of the detached log-streaming goroutine: the loop
calls GetContainerLogs repeatedly, breaking on the first nil return and
sleeping 100 milliseconds after each failure.  outcome k is the result
of attempt k (true = success).  The loop is embedded with fuel; the
result is (number of attempts made, total milliseconds slept), or none
when the fuel window saw no success. -/
def getContainerLogsRetryLoop (outcome : Nat → Bool) :
    Nat → Nat → Nat → Option (Nat × Nat)
  | 0, _, _ => none
  | fuel + 1, k, slept =>
    if outcome k then some (k + 1, slept)
    else getContainerLogsRetryLoop outcome fuel (k + 1) (slept + 100)

structure ExecResult where
  exitCode : Nat
deriving DecidableEq

/-- Environment of one cloneWorkspaceRepository call: outcomes of the
fallible external steps it performs, in source order.  logOutcome feeds
the detached streaming goroutine only.  uidGidErr records whether
updateContainerUserUidGid reported an error; the Go code assigns that
error to err but never tests it before the next ExecSync overwrites it,
so the field deliberately has no influence on the result. -/
structure CloneEnv where
  mkdirOk : Bool
  containerCreateOk : Bool
  containerStartOk : Bool
  logOutcome : Nat → Bool
  uidGidErr : Bool
  execRes : Option ExecResult

inductive CloneError
  | mkdirFailed
  | containerCreateFailed
  | containerStartFailed
  | execFailed
  | cloneExit (code : Nat)
deriving DecidableEq

/-- Embedding of cloneWorkspaceRepository.  The log-streaming goroutine
started between ContainerStart and ExecSync is detached: its attempts
are described by getContainerLogsRetryLoop over env.logOutcome, and
nothing it does reaches this function's control flow. -/
def cloneWorkspaceRepository (env : CloneEnv) : Except CloneError Unit :=
  if ¬ env.mkdirOk then Except.error CloneError.mkdirFailed
  else if ¬ env.containerCreateOk then Except.error CloneError.containerCreateFailed
  else if ¬ env.containerStartOk then Except.error CloneError.containerStartFailed
  else
    match env.execRes with
    | none => Except.error CloneError.execFailed
    | some r =>
      if r.exitCode ≠ 0 then Except.error (CloneError.cloneExit r.exitCode)
      else Except.ok ()

/-! ## CreateWorkspace dispatch and image-pull dedup (docker CreateWorkspace) -/

inductive BuilderType
  | devcontainer
  | image
  | unknown (tag : String)
deriving DecidableEq

/-- Observable step of one provisioning run.  underlyingPull is an
actual registry pull; skippedPull is a pull request answered from the
pulledImages dedup cache. -/
inductive Step
  | underlyingPull (image : String)
  | skippedPull (image : String)
  | clone
  | detect
  | devcontainerPath
  | imagePath
deriving DecidableEq

structure CreateResult where
  steps : List Step
  err : Option String
deriving DecidableEq

structure CreateOpts where
  hasBuildConfig : Bool
  builderImage : String
  workspaceImage : String
  pullOk : String → Bool
  cloneOk : Bool
  detectResult : Except String BuilderType
  devcontainerOk : Bool

/-- Modelled from the spec: createWorkspaceFromImage is not among the
provided sources; per section 4.3 the image path pulls the workspace
image, skipping the re-pull if the exact image tag was already pulled
in this operation (the pulledImages cache handed down by
CreateWorkspace), then finalizes the workspace from that image. -/
def createWorkspaceFromImage (workspaceImage : String) (pulledImages : List String)
    (pullOk : String → Bool) : CreateResult :=
  if workspaceImage ∈ pulledImages then
    { steps := [Step.imagePath, Step.skippedPull workspaceImage], err := none }
  else if pullOk workspaceImage then
    { steps := [Step.imagePath, Step.underlyingPull workspaceImage], err := none }
  else
    { steps := [Step.imagePath], err := some ("pull failed: " ++ workspaceImage) }

/-- Embedding of DockerClient.CreateWorkspace.  The pulledImages dedup
cache is created empty at the top of every call, exactly as the Go map
literal is; pulls, the clone, builder-type detection (an oracle for the
external detect package) and the dispatch switch follow the source.
The result carries the trace of observable steps next to the error. -/
def CreateWorkspace (opts : CreateOpts) : CreateResult :=
  let pulledImages : List String := []
  if opts.hasBuildConfig then
    if opts.pullOk opts.builderImage then
      let pulledImages := opts.builderImage :: pulledImages
      let pullSteps := [Step.underlyingPull opts.builderImage]
      if opts.cloneOk then
        let steps := pullSteps ++ [Step.clone, Step.detect]
        match opts.detectResult with
        | Except.error e => { steps := steps, err := some e }
        | Except.ok BuilderType.devcontainer =>
          { steps := steps ++ [Step.devcontainerPath]
            err := if opts.devcontainerOk then none else some "devcontainer build failed" }
        | Except.ok BuilderType.image =>
          let r := createWorkspaceFromImage opts.workspaceImage pulledImages opts.pullOk
          { steps := steps ++ r.steps, err := r.err }
        | Except.ok (BuilderType.unknown s) =>
          { steps := steps, err := some ("unknown builder type: " ++ s) }
      else
        { steps := pullSteps, err := some "clone failed" }
    else
      { steps := [], err := some ("pull failed: " ++ opts.builderImage) }
  else
    let r := createWorkspaceFromImage opts.workspaceImage pulledImages opts.pullOk
    { steps := r.steps, err := r.err }

/-! ## Suggested-name search (pkg/cmd/workspace/create/creation_data.go)

GetSuggestedName appends Sprintf style decimal suffixes starting at 2
until the candidate is absent from existingNames.  The unbounded Go
loop is embedded with explicit fuel; existingNames.length + 1 fuel is
proved sufficient below, because the candidates are pairwise distinct
strings and a list can exclude at most its own length of them. -/

def suggestLoop (suggestion : String) (existingNames : List String) :
    Nat → Nat → String
  | 0, i => suggestion ++ toString i
  | fuel + 1, i =>
    let newSuggestion := suggestion ++ toString i
    if newSuggestion ∈ existingNames then suggestLoop suggestion existingNames fuel (i + 1)
    else newSuggestion

/-- Embedding of GetSuggestedName. -/
def GetSuggestedName (initialSuggestion : String) (existingNames : List String) : String :=
  if initialSuggestion ∈ existingNames then
    suggestLoop initialSuggestion existingNames (existingNames.length + 1) 2
  else initialSuggestion

/-! Decimal-representation theory: Nat.repr (the meaning of the %d verb
in the Sprintf call) is injective, so the candidate names are pairwise
distinct.  Nat.repr is characterized through an accumulator-free digit
list first. -/

/-- Decimal digit characters of a natural number, most significant
first. -/
def decimalDigits (n : Nat) : List Char :=
  if n < 10 then [Nat.digitChar n]
  else decimalDigits (n / 10) ++ [Nat.digitChar (n % 10)]
termination_by n
decreasing_by exact Nat.div_lt_self (by omega) (by omega)

theorem decimalDigits_ne_nil (n : Nat) : decimalDigits n ≠ [] := by
  rw [decimalDigits]
  split <;> simp

theorem toDigitsCore_eq_decimalDigits (fuel : Nat) :
    ∀ n ds, n < fuel → Nat.toDigitsCore 10 fuel n ds = decimalDigits n ++ ds := by
  induction fuel with
  | zero => intro n ds h; omega
  | succ f ih =>
    intro n ds h
    rw [Nat.toDigitsCore]
    by_cases h10 : n / 10 = 0
    · have hn : n < 10 := by omega
      have hmod : n % 10 = n := Nat.mod_eq_of_lt hn
      rw [decimalDigits]
      simp [h10, hn, hmod]
    · have hlt : n / 10 < f := by
        have h1 : n / 10 < n := Nat.div_lt_self (by omega) (by omega)
        omega
      rw [decimalDigits]
      have hn : ¬ n < 10 := by omega
      simp only [h10, if_neg, hn, if_false]
      rw [ih (n / 10) (Nat.digitChar (n % 10) :: ds) hlt]
      simp

theorem repr_eq_decimalDigits (n : Nat) : Nat.repr n = (decimalDigits n).asString := by
  show (Nat.toDigits 10 n).asString = (decimalDigits n).asString
  rw [Nat.toDigits, toDigitsCore_eq_decimalDigits (n + 1) n [] (Nat.lt_succ_self n)]
  simp

theorem digitChar_inj_of_lt (a b : Nat) (ha : a < 10) (hb : b < 10)
    (h : Nat.digitChar a = Nat.digitChar b) : a = b := by
  have key : ∀ x y : Fin 10, Nat.digitChar x.val = Nat.digitChar y.val → x = y := by decide
  exact congrArg Fin.val (key ⟨a, ha⟩ ⟨b, hb⟩ h)

theorem decimalDigits_eq_of_lt (n : Nat) (h : n < 10) :
    decimalDigits n = [Nat.digitChar n] := by
  rw [decimalDigits, if_pos h]

theorem decimalDigits_eq_of_ge (n : Nat) (h : ¬ n < 10) :
    decimalDigits n = decimalDigits (n / 10) ++ [Nat.digitChar (n % 10)] := by
  rw [decimalDigits, if_neg h]

theorem decimalDigits_injective (a : Nat) :
    ∀ b : Nat, decimalDigits a = decimalDigits b → a = b := by
  induction a using Nat.strong_induction_on with
  | _ a ih =>
    intro b h
    by_cases ha : a < 10 <;> by_cases hb : b < 10
    · rw [decimalDigits_eq_of_lt a ha, decimalDigits_eq_of_lt b hb] at h
      simp only [List.cons.injEq, and_true] at h
      exact digitChar_inj_of_lt a b ha hb h
    · obtain ⟨c, t, hct⟩ := List.exists_cons_of_ne_nil (decimalDigits_ne_nil (b / 10))
      rw [decimalDigits_eq_of_lt a ha, decimalDigits_eq_of_ge b hb, hct] at h
      simp at h
    · obtain ⟨c, t, hct⟩ := List.exists_cons_of_ne_nil (decimalDigits_ne_nil (a / 10))
      rw [decimalDigits_eq_of_ge a ha, decimalDigits_eq_of_lt b hb, hct] at h
      simp at h
    · rw [decimalDigits_eq_of_ge a ha, decimalDigits_eq_of_ge b hb] at h
      have hpair := List.append_inj' h (by simp)
      have hdiv : a / 10 = b / 10 :=
        ih (a / 10) (Nat.div_lt_self (by omega) (by omega)) (b / 10) hpair.1
      have hchar : Nat.digitChar (a % 10) = Nat.digitChar (b % 10) := by
        have h2 := hpair.2
        simp only [List.cons.injEq, and_true] at h2
        exact h2
      have hmod : a % 10 = b % 10 :=
        digitChar_inj_of_lt _ _ (Nat.mod_lt _ (by omega)) (Nat.mod_lt _ (by omega)) hchar
      omega

theorem asString_injective (l₁ l₂ : List Char) (h : l₁.asString = l₂.asString) :
    l₁ = l₂ := by
  have h2 : l₁.asString.data = l₂.asString.data := congrArg String.data h
  simpa [List.asString] using h2

theorem repr_injective (a b : Nat) (h : Nat.repr a = Nat.repr b) : a = b := by
  rw [repr_eq_decimalDigits, repr_eq_decimalDigits] at h
  exact decimalDigits_injective a b (asString_injective _ _ h)

theorem string_append_cancel_left (s x y : String) (h : s ++ x = s ++ y) : x = y := by
  cases s with
  | mk sd =>
    cases x with
    | mk xd =>
      cases y with
      | mk yd =>
        have h2 : sd ++ xd = sd ++ yd := congrArg String.data h
        exact congrArg String.mk (List.append_cancel_left h2)

theorem suffix_name_injective (s : String) (i j : Nat)
    (h : s ++ Nat.repr i = s ++ Nat.repr j) : i = j :=
  repr_injective i j (string_append_cancel_left s _ _ h)

theorem exists_free_suffix (s : String) (names : List String) :
    ∃ k, k < names.length + 1 ∧ (s ++ Nat.repr (2 + k)) ∉ names := by
  by_contra hc
  push_neg at hc
  have hinj : Function.Injective (fun k : Nat => s ++ Nat.repr (2 + k)) := by
    intro x y hxy
    have := suffix_name_injective s (2 + x) (2 + y) hxy
    omega
  have hnodup :
      ((List.range (names.length + 1)).map (fun k => s ++ Nat.repr (2 + k))).Nodup :=
    List.Nodup.map hinj (List.nodup_range _)
  have hsub :
      ((List.range (names.length + 1)).map (fun k => s ++ Nat.repr (2 + k))) ⊆ names := by
    intro x hx
    simp only [List.mem_map, List.mem_range] at hx
    obtain ⟨k, hk, rfl⟩ := hx
    exact hc k hk
  have hle := (List.subperm_of_subset hnodup hsub).length_le
  simp [List.length_map, List.length_range] at hle

theorem toString_nat_eq_repr (n : Nat) : toString n = Nat.repr n := rfl

theorem suggestLoop_spec (s : String) (names : List String) :
    ∀ fuel i k, k < fuel → (s ++ Nat.repr (i + k)) ∉ names →
      (∀ j, j < k → (s ++ Nat.repr (i + j)) ∈ names) →
      suggestLoop s names fuel i = s ++ Nat.repr (i + k) := by
  intro fuel
  induction fuel with
  | zero => intro i k hk; omega
  | succ f ih =>
    intro i k hk hfree hocc
    simp only [suggestLoop]
    cases k with
    | zero =>
      have hfree' : (s ++ toString i) ∉ names := by
        rw [toString_nat_eq_repr]
        simpa using hfree
      rw [if_neg hfree', toString_nat_eq_repr]
      simp
    | succ k' =>
      have h0 : (s ++ toString i) ∈ names := by
        rw [toString_nat_eq_repr]
        have := hocc 0 (Nat.succ_pos k')
        simpa using this
      rw [if_pos h0]
      have heq : i + 1 + k' = i + (k' + 1) := by omega
      have hfree' : (s ++ Nat.repr (i + 1 + k')) ∉ names := by rw [heq]; exact hfree
      have hocc' : ∀ j, j < k' → (s ++ Nat.repr (i + 1 + j)) ∈ names := by
        intro j hj
        have heqj : i + 1 + j = i + (j + 1) := by omega
        rw [heqj]
        exact hocc (j + 1) (by omega)
      rw [ih (i + 1) k' (by omega) hfree' hocc', heq]

/-! ## Claim theorems -/

/-- C10: GetSQLiteConnection is a process-wide memoized singleton: the
first call opens the database at its dbPath argument and caches the
handle in the _db global, and every subsequent call returns that
identical cached handle unchanged, ignoring both its own dbPath
argument and the open oracle, whatever path is passed. -/
theorem C10_sqlite_connection_memoized
    (openOk openOk2 : String → Bool) (p p2 : String) (db : GormDB) :
    (openOk p = true →
      GetSQLiteConnection openOk p none = some (⟨p⟩, some ⟨p⟩)) ∧
    (GetSQLiteConnection openOk2 p2 (some db) = some (db, some db)) ∧
    (openOk p = true → ∀ r1 st1,
      GetSQLiteConnection openOk p none = some (r1, st1) →
      GetSQLiteConnection openOk2 p2 st1 = some (r1, st1)) := by
  refine ⟨fun h => by simp [GetSQLiteConnection, h], by simp [GetSQLiteConnection], ?_⟩
  intro h r1 st1 h1
  simp only [GetSQLiteConnection, h, if_true] at h1
  obtain ⟨hr, hst⟩ := Prod.mk.injEq .. ▸ (Option.some.injEq .. ▸ h1)
  subst hr
  subst hst
  simp [GetSQLiteConnection]

theorem C10_witness :
    GetSQLiteConnection (fun _ => true) "b.db" (some ⟨"a.db"⟩) =
      some (⟨"a.db"⟩, some ⟨"a.db"⟩) :=
  (C10_sqlite_connection_memoized (fun _ => true) (fun _ => true) "a.db" "b.db"
      ⟨"a.db"⟩).2.2 rfl ⟨"a.db"⟩ (some ⟨"a.db"⟩) rfl

/-- C9: in GetCreateWorkspaceDtoFromFlags the no-builder / custom-image
settings override the devcontainer settings: whenever the Builder flag
equals NONE or CustomImage or CustomImageUser is non-empty, the
returned DTO's BuildConfig is nil even if a devcontainer BuildConfig
was first assigned; a devcontainer BuildConfig survives exactly when no
override condition holds. -/
theorem C9_custom_image_overrides_devcontainer
    (mapKeyValue : List String → Except String (List (String × String)))
    (flags : WorkspaceConfigurationFlags) (dto : CreateWorkspaceDTO)
    (hok : GetCreateWorkspaceDtoFromFlags mapKeyValue flags = Except.ok dto) :
    ((flags.builder = NONE_BUILD_CHOICE ∨ flags.customImage ≠ "" ∨ flags.customImageUser ≠ "") →
      dto.buildConfig = none) ∧
    (¬ (flags.builder = NONE_BUILD_CHOICE ∨ flags.customImage ≠ "" ∨ flags.customImageUser ≠ "") →
      (flags.builder = DEVCONTAINER ∨ flags.devcontainerPath ≠ "") →
      dto.buildConfig = some
        ⟨some ⟨if flags.devcontainerPath ≠ "" then flags.devcontainerPath
               else DEVCONTAINER_FILEPATH⟩⟩) := by
  simp only [GetCreateWorkspaceDtoFromFlags] at hok
  constructor
  · intro hover
    rw [if_pos hover] at hok
    by_cases himg : flags.customImage ≠ "" ∨ flags.customImageUser ≠ ""
    · rw [if_pos himg] at hok
      split at hok
      · exact absurd hok (by simp)
      · split at hok
        · exact absurd hok (by simp)
        · simp only [Except.ok.injEq] at hok
          subst hok
          rfl
    · rw [if_neg himg] at hok
      split at hok
      · exact absurd hok (by simp)
      · split at hok
        · exact absurd hok (by simp)
        · simp only [Except.ok.injEq] at hok
          subst hok
          rfl
  · intro hover hdev
    rw [if_pos hdev, if_neg hover] at hok
    split at hok
    · exact absurd hok (by simp)
    · split at hok
      · exact absurd hok (by simp)
      · simp only [Except.ok.injEq] at hok
        subst hok
        rfl

theorem C9_witness :
    (GetCreateWorkspaceDtoFromFlags (fun _ => Except.ok [])
        ⟨"devcontainer", ".devcontainer/custom.json", "ubuntu:22.04", "", none, none, none⟩ =
      Except.ok ⟨none, none, some "ubuntu:22.04", some "", [], []⟩) ∧
    (("devcontainer" : String) = NONE_BUILD_CHOICE ∨ ("ubuntu:22.04" : String) ≠ "" ∨
      ("" : String) ≠ "") ∧
    (⟨none, none, some "ubuntu:22.04", some "", [], []⟩ : CreateWorkspaceDTO).buildConfig =
      none := by
  refine ⟨rfl, by decide, ?_⟩
  exact (C9_custom_image_overrides_devcontainer (fun _ => Except.ok [])
    ⟨"devcontainer", ".devcontainer/custom.json", "ubuntu:22.04", "", none, none, none⟩
    ⟨none, none, some "ubuntu:22.04", some "", [], []⟩ rfl).1 (by decide)

/-- C2: ForceDelete performs a hard delete regardless of the
workspace's current reported state: with a best-effort revocation
outcome (success or already-revoked) it succeeds and purges the Store
row — even if a prior Delete was never called — so that a subsequent
Find no longer locates the row (it reports Deleted via the enqueued
delete Job and never returns the workspace). -/
theorem C2_force_delete_purges_row (st : ServiceState) (id : String) (revoke : RevokeResult)
    (hrevoke : revoke = RevokeResult.ok ∨ revoke = RevokeResult.alreadyRevoked) :
    (ForceDelete st id revoke).toOption.isSome = true ∧
    (∀ st', ForceDelete st id revoke = Except.ok st' →
      st'.rows.find? (fun r => r.id = id) = none ∧
      Find st' id = Except.error ServiceError.deletedError ∧
      ∀ w, Find st' id ≠ Except.ok w) := by
  have hfd : ForceDelete st id revoke =
      Except.ok
        { rows := st.rows.filter (fun r => r.id ≠ id)
          jobs := st.jobs ++ [⟨id, JobAction.delete⟩]
          revokedKeys := st.revokedKeys ++ [id] } := by
    rcases hrevoke with h | h <;> subst h <;> rfl
  refine ⟨by rw [hfd]; rfl, ?_⟩
  intro st' h'
  rw [hfd] at h'
  simp only [Except.ok.injEq] at h'
  subst h'
  have hnone : (st.rows.filter (fun r => r.id ≠ id)).find? (fun r => r.id = id) = none := by
    rw [List.find?_eq_none]
    intro x hx
    have := List.of_mem_filter hx
    simp at this ⊢
    exact this
  refine ⟨hnone, ?_, ?_⟩
  · simp only [Find, hnone]
    have : (st.jobs ++ [(⟨id, JobAction.delete⟩ : Job)]).any
        (fun j => j.resourceId = id ∧ j.action = JobAction.delete) = true := by
      simp
    rw [if_pos this]
  · intro w hw
    simp only [Find, hnone] at hw
    split at hw <;> exact absurd hw (by simp)

theorem C2_witness :
    (ForceDelete ⟨[⟨"123", "workspace1", false⟩], [], []⟩ "123"
        RevokeResult.ok).toOption.isSome = true ∧
    Find ⟨[], [⟨"123", JobAction.delete⟩], ["123"]⟩ "123" =
      Except.error ServiceError.deletedError := by
  have h := C2_force_delete_purges_row ⟨[⟨"123", "workspace1", false⟩], [], []⟩ "123"
    RevokeResult.ok (Or.inl rfl)
  exact ⟨h.1, (h.2 ⟨[], [⟨"123", JobAction.delete⟩], ["123"]⟩ rfl).2.1⟩

/-- C6: Find on a soft-deleted workspace id returns the distinct
Deleted error, and Find on a never-existing id (no row and no Job ever
recorded for it) returns the generic NotFound error; the two outcomes
are never confused. -/
theorem C6_find_deleted_vs_not_found (st : ServiceState) (id : String) :
    (∀ r, st.rows.find? (fun r => r.id = id) = some r → r.deleted = true →
      Find st id = Except.error ServiceError.deletedError) ∧
    (st.rows.find? (fun r => r.id = id) = none →
      (∀ j ∈ st.jobs, j.resourceId ≠ id) →
      Find st id = Except.error ServiceError.notFoundError) := by
  constructor
  · intro r hr hdel
    simp only [Find, hr, hdel]
    rfl
  · intro hnone hjobs
    simp only [Find, hnone]
    have : st.jobs.any (fun j => j.resourceId = id ∧ j.action = JobAction.delete) = false := by
      simp only [List.any_eq_false]
      intro j hj
      simp only [decide_eq_true_eq, not_and]
      intro hres
      exact absurd hres (hjobs j hj)
    rw [this]
    rfl

theorem C6_witness :
    Find ⟨[⟨"123", "workspace1", true⟩], [⟨"123", JobAction.delete⟩], ["123"]⟩ "123" =
      Except.error ServiceError.deletedError ∧
    Find ⟨[⟨"123", "workspace1", true⟩], [⟨"123", JobAction.delete⟩], ["123"]⟩ "invalid-id" =
      Except.error ServiceError.notFoundError := by
  constructor
  · exact (C6_find_deleted_vs_not_found
      ⟨[⟨"123", "workspace1", true⟩], [⟨"123", JobAction.delete⟩], ["123"]⟩ "123").1
      ⟨"123", "workspace1", true⟩ (by decide) rfl
  · exact (C6_find_deleted_vs_not_found
      ⟨[⟨"123", "workspace1", true⟩], [⟨"123", JobAction.delete⟩], ["123"]⟩ "invalid-id").2
      (by decide) (by decide)

/-- C7: UID/GID reconciliation no-change cases: a target of (0,0) skips
the patch entirely and the clone runs as root, leaving the container's
user database untouched; and a target equal to the container user's
existing mapped UID/GID modifies neither /etc/passwd nor /etc/group. -/
theorem C7_uid_gid_no_change (passwd : List PasswdEntry) (group : List GroupEntry)
    (newUid newGid : String) (e : PasswdEntry)
    (hlast : (passwd.filter (fun x => x.name = "daytona")).getLast? = some e)
    (huid : e.uid = newUid) (hgid : e.gid = newGid) :
    (updateContainerUserUidGid "0" "0" passwd group =
      ⟨"root", false, passwd, group, []⟩) ∧
    ((updateContainerUserUidGid newUid newGid passwd group).passwd = passwd ∧
     (updateContainerUserUidGid newUid newGid passwd group).group = group) := by
  refine ⟨rfl, ?_⟩
  by_cases hroot : newUid = "0" ∧ newGid = "0"
  · simp [updateContainerUserUidGid, if_pos hroot]
  · simp only [updateContainerUserUidGid, if_neg hroot]
    rw [if_pos (by decide : ¬ ("daytona" : String) = "root")]
    simp only [runUpdateUidGidScript, hlast, Option.map_some', Option.getD_some]
    by_cases hne : e.uid = ""
    · rw [if_pos hne]
      exact ⟨rfl, rfl⟩
    · rw [if_neg hne, if_pos ⟨huid, hgid⟩]
      exact ⟨rfl, rfl⟩

theorem C7_witness :
    (updateContainerUserUidGid "0" "0" [⟨"daytona", "1000", "1000", "/home/daytona"⟩] [] =
      ⟨"root", false, [⟨"daytona", "1000", "1000", "/home/daytona"⟩], [], []⟩) ∧
    (updateContainerUserUidGid "1000" "1000"
        [⟨"daytona", "1000", "1000", "/home/daytona"⟩] []).passwd =
      [⟨"daytona", "1000", "1000", "/home/daytona"⟩] := by
  have h := C7_uid_gid_no_change [⟨"daytona", "1000", "1000", "/home/daytona"⟩] []
    "1000" "1000" ⟨"daytona", "1000", "1000", "/home/daytona"⟩ (by decide) rfl rfl
  exact ⟨h.1, h.2.1⟩

/-- C1 counterexample: the claim asserts that for every non-root
(NEW_UID, NEW_GID) input where an existing group owns NEW_GID, the UID
is still updated in /etc/passwd.  At NEW_UID = 2000, NEW_GID = 3000,
with group g owning GID 3000 but user other also owning UID 2000, the
script takes the user-collision branch instead and leaves /etc/passwd
completely untouched: daytona keeps UID 1000. -/
theorem C1_counterexample :
    (¬ ("2000" = "0" ∧ "3000" = "0")) ∧
    (([⟨"g", "3000"⟩] : List GroupEntry).any (fun g => g.gid = "3000") = true) ∧
    ((updateContainerUserUidGid "2000" "3000"
        [⟨"daytona", "1000", "1000", "/home/daytona"⟩,
         ⟨"other", "2000", "2000", "/home/other"⟩]
        [⟨"g", "3000"⟩]).passwd =
      [⟨"daytona", "1000", "1000", "/home/daytona"⟩,
       ⟨"other", "2000", "2000", "/home/other"⟩]) ∧
    ((updateContainerUserUidGid "2000" "3000"
        [⟨"daytona", "1000", "1000", "/home/daytona"⟩,
         ⟨"other", "2000", "2000", "/home/other"⟩]
        [⟨"g", "3000"⟩]).passwd.any (fun x => x.name = "daytona" ∧ x.uid = "2000") = false) := by
  refine ⟨by decide, by decide, by decide, by decide⟩

/-- C1 (amended): when the patch script runs for a non-root target
(NEW_UID, NEW_GID), the remote user daytona exists in /etc/passwd with
a nonempty UID, no *different* user owns NEW_UID (either daytona
already has it or no passwd entry carries it), the target GID differs
from daytona's old GID and an existing group owns NEW_GID, then the
GID collision is reported via echo, /etc/passwd is updated to NEW_UID
while the old GID is preserved (NEW_GID is reset to OLD_GID), and
/etc/group is left unchanged. -/
theorem C1_gid_collision_updates_uid_keeps_gid
    (newUid newGid : String) (passwd : List PasswdEntry) (group : List GroupEntry)
    (e : PasswdEntry) (gname : String)
    (hroot : ¬ (newUid = "0" ∧ newGid = "0"))
    (hlast : (passwd.filter (fun x => x.name = "daytona")).getLast? = some e)
    (hne : e.uid ≠ "")
    (huser : e.uid = newUid ∨
      ((passwd.filter (fun x => x.uid = newUid)).getLast?.map PasswdEntry.name).getD "" = "")
    (hgid : e.gid ≠ newGid)
    (hgrp : ((group.filter (fun x => x.gid = newGid)).getLast?.map GroupEntry.name).getD "" =
      gname)
    (hgname : gname ≠ "") :
    updateContainerUserUidGid newUid newGid passwd group =
      ⟨"daytona", true,
       passwd.map
         (fun x => if x.name = "daytona" then { x with uid := newUid, gid := e.gid } else x),
       group,
       ["Group with GID exists (" ++ gname ++ "=" ++ newGid ++ ").",
        "Updating UID:GID from " ++ e.uid ++ ":" ++ e.gid ++ " to " ++
          newUid ++ ":" ++ e.gid ++ "."]⟩ := by
  simp only [updateContainerUserUidGid, if_neg hroot]
  rw [if_pos (by decide : ¬ ("daytona" : String) = "root")]
  simp only [runUpdateUidGidScript, hlast, hgrp, Option.map_some', Option.getD_some]
  rw [if_neg hne, if_neg (fun hsame => hgid hsame.2)]
  have huser2 : ¬ (e.uid ≠ newUid ∧
      ((passwd.filter (fun x => x.uid = newUid)).getLast?.map PasswdEntry.name).getD "" ≠ "") := by
    rcases huser with h | h
    · exact fun hc => hc.1 h
    · exact fun hc => hc.2 h
  rw [if_neg huser2, if_pos ⟨hgid, hgname⟩, if_pos ⟨hgid, hgname⟩]
  rw [if_neg (fun hc : e.gid ≠ e.gid => hc rfl)]
  rfl

theorem C1_witness :
    updateContainerUserUidGid "2000" "3000"
        [⟨"daytona", "1000", "1000", "/home/daytona"⟩] [⟨"g", "3000"⟩] =
      ⟨"daytona", true, [⟨"daytona", "2000", "1000", "/home/daytona"⟩], [⟨"g", "3000"⟩],
       ["Group with GID exists (g=3000).",
        "Updating UID:GID from 1000:1000 to 2000:1000."]⟩ := by
  have h := C1_gid_collision_updates_uid_keeps_gid "2000" "3000"
    [⟨"daytona", "1000", "1000", "/home/daytona"⟩] [⟨"g", "3000"⟩]
    ⟨"daytona", "1000", "1000", "/home/daytona"⟩ "g"
    (by decide) (by decide) (by decide) (Or.inr (by decide)) (by decide) (by decide) (by decide)
  exact h.trans (by decide)

/-- Log-stream oracle on which every GetContainerLogs attempt fails:
the log pipe never becomes ready, so the retry loop never converges. -/
def alwaysFailingLogs : Nat → Bool := fun _ => false

/-- Log-stream oracle whose first two attempts fail and whose third
attempt (index 2) succeeds. -/
def logsReadyAtTwo : Nat → Bool := fun n => 2 ≤ n

/-- Clone environment in which every non-streaming step succeeds. -/
def cloneEnvAllOk : CloneEnv :=
  { mkdirOk := true
    containerCreateOk := true
    containerStartOk := true
    logOutcome := logsReadyAtTwo
    uidGidErr := false
    execRes := some ⟨0⟩ }

/-- C3 counterexample: the claim asserts that when log-streaming
retries never converge the enclosing clone fails with a provisioning
error.  With every streaming attempt failing the retry loop never
converges (shown over a 50-attempt window; the oracle is constantly
false), yet cloneWorkspaceRepository still returns success when mkdir,
container create/start and the git exec succeed: the goroutine is
detached and its failures never reach the clone's result. -/
theorem C3_counterexample :
    getContainerLogsRetryLoop alwaysFailingLogs 50 0 0 = none ∧
    cloneWorkspaceRepository
        { mkdirOk := true
          containerCreateOk := true
          containerStartOk := true
          logOutcome := alwaysFailingLogs
          uidGidErr := false
          execRes := some ⟨0⟩ } = Except.ok () :=
  ⟨rfl, rfl⟩

/-- C3 (amended): the detached streaming loop retries each failed
GetContainerLogs attempt after a fixed 100 ms sleep and stops at the
first successful attempt; the retries are invisible to the caller
unconditionally — the clone's outcome is independent of the streaming
outcomes, and a never-converging stream does not make the clone fail
(see the recorded counterexample to the original claim). -/
theorem C3_log_retries_detached
    (outcome : Nat → Bool) (k fuel : Nat)
    (hk : outcome k = true) (hbefore : ∀ j, j < k → outcome j = false)
    (hfuel : k < fuel) (env : CloneEnv) (outcome2 : Nat → Bool) :
    getContainerLogsRetryLoop outcome fuel 0 0 = some (k + 1, 100 * k) ∧
    cloneWorkspaceRepository { env with logOutcome := outcome2 } =
      cloneWorkspaceRepository env := by
  constructor
  · have aux : ∀ fuel i slept, i ≤ k → k < i + fuel →
        getContainerLogsRetryLoop outcome fuel i slept =
          some (k + 1, slept + 100 * (k - i)) := by
      intro f
      induction f with
      | zero => intro i slept h1 h2; omega
      | succ f ih =>
        intro i slept h1 h2
        simp only [getContainerLogsRetryLoop]
        by_cases hi : i = k
        · subst hi
          rw [if_pos hk]
          simp
        · have hfalse : outcome i = false := hbefore i (by omega)
          rw [if_neg (by simp [hfalse])]
          rw [ih (i + 1) (slept + 100) (by omega) (by omega)]
          have : slept + 100 + 100 * (k - (i + 1)) = slept + 100 * (k - i) := by omega
          rw [this]
    have h := aux fuel 0 0 (Nat.zero_le k) (by omega)
    simpa using h
  · cases env
    rfl

theorem C3_witness :
    getContainerLogsRetryLoop logsReadyAtTwo 10 0 0 = some (3, 200) ∧
    cloneWorkspaceRepository { cloneEnvAllOk with logOutcome := alwaysFailingLogs } =
      cloneWorkspaceRepository cloneEnvAllOk := by
  have h := C3_log_retries_detached logsReadyAtTwo 2 10 rfl
    (fun j hj => by
      have : ¬ 2 ≤ j := by omega
      simp [logsReadyAtTwo, this])
    (by omega) cloneEnvAllOk alwaysFailingLogs
  exact h

/-- Pull oracle on which every registry pull succeeds. -/
def allPullsSucceed : String → Bool := fun _ => true

/-- Options for a provisioning run with a build config whose detected
builder type is Image and whose workspace image coincides with the
builder image, so the same reference is requested twice in one run. -/
def optsSameImageTwice : CreateOpts :=
  { hasBuildConfig := true
    builderImage := "daytonaio/workspace-project:latest"
    workspaceImage := "daytonaio/workspace-project:latest"
    pullOk := allPullsSucceed
    cloneOk := true
    detectResult := Except.ok BuilderType.image
    devcontainerOk := true }

/-- C4: image-pull dedup within one provisioning run: when a
CreateWorkspace call requests the same exact image reference twice
(builder image and workspace image coincide, image path taken), the
underlying pull executes exactly once and the second request is
answered from the pulledImages cache; and because the cache is created
empty at the top of each call and shared nowhere, two runs perform two
underlying pulls (one each). -/
theorem C4_image_pull_dedup (opts : CreateOpts)
    (hbc : opts.hasBuildConfig = true)
    (hpull : opts.pullOk opts.builderImage = true)
    (hclone : opts.cloneOk = true)
    (hdetect : opts.detectResult = Except.ok BuilderType.image)
    (hsame : opts.workspaceImage = opts.builderImage) :
    ((CreateWorkspace opts).steps.count (Step.underlyingPull opts.builderImage) = 1 ∧
     Step.skippedPull opts.builderImage ∈ (CreateWorkspace opts).steps) ∧
    ((CreateWorkspace opts).steps ++ (CreateWorkspace opts).steps).count
        (Step.underlyingPull opts.builderImage) = 2 := by
  have hsteps : (CreateWorkspace opts).steps =
      [Step.underlyingPull opts.builderImage, Step.clone, Step.detect,
       Step.imagePath, Step.skippedPull opts.builderImage] := by
    simp only [CreateWorkspace, hbc, hpull, hclone, hdetect, if_true]
    simp only [createWorkspaceFromImage, hsame]
    simp
  constructor
  · constructor
    · rw [hsteps]
      simp [List.count_cons]
    · rw [hsteps]
      simp
  · rw [hsteps]
    simp [List.count_append, List.count_cons]

theorem C4_witness :
    ((CreateWorkspace optsSameImageTwice).steps.count
        (Step.underlyingPull "daytonaio/workspace-project:latest") = 1) ∧
    (Step.skippedPull "daytonaio/workspace-project:latest" ∈
      (CreateWorkspace optsSameImageTwice).steps) := by
  have h := C4_image_pull_dedup optsSameImageTwice rfl rfl rfl rfl rfl
  exact h.1

/-- Options for a provisioning run with a build config on which the
builder-image pull and the clone succeed and detection yields no
recognized strategy. -/
def optsUnknownBuilder : CreateOpts :=
  { hasBuildConfig := true
    builderImage := "daytonaio/workspace-project:latest"
    workspaceImage := "custom/image:1.0"
    pullOk := allPullsSucceed
    cloneOk := true
    detectResult := Except.ok (BuilderType.unknown "mystery")
    devcontainerOk := true }

/-- C5: for every workspace whose build configuration is set, after the
builder-image pull and the repository clone succeed, builder-type
detection runs against the cloned tree; a Devcontainer result takes the
devcontainer path, an Image result takes the image path, and a
detection result naming no recognized strategy fails CreateWorkspace
with the unknown-builder-type error. -/
theorem C5_builder_type_dispatch (opts : CreateOpts)
    (hbc : opts.hasBuildConfig = true)
    (hpull : opts.pullOk opts.builderImage = true)
    (hclone : opts.cloneOk = true) :
    (Step.detect ∈ (CreateWorkspace opts).steps) ∧
    (opts.detectResult = Except.ok BuilderType.devcontainer →
      Step.devcontainerPath ∈ (CreateWorkspace opts).steps ∧
      Step.imagePath ∉ (CreateWorkspace opts).steps) ∧
    (opts.detectResult = Except.ok BuilderType.image →
      Step.imagePath ∈ (CreateWorkspace opts).steps ∧
      Step.devcontainerPath ∉ (CreateWorkspace opts).steps) ∧
    (∀ s, opts.detectResult = Except.ok (BuilderType.unknown s) →
      (CreateWorkspace opts).err = some ("unknown builder type: " ++ s) ∧
      Step.devcontainerPath ∉ (CreateWorkspace opts).steps ∧
      Step.imagePath ∉ (CreateWorkspace opts).steps) := by
  refine ⟨?_, ?_, ?_, ?_⟩
  · simp only [CreateWorkspace, hbc, hpull, hclone, if_true]
    match opts.detectResult with
    | Except.error e => simp
    | Except.ok BuilderType.devcontainer => simp
    | Except.ok BuilderType.image =>
      simp only [createWorkspaceFromImage]
      split <;> simp
    | Except.ok (BuilderType.unknown s) => simp
  · intro hdet
    simp only [CreateWorkspace, hbc, hpull, hclone, hdet, if_true]
    simp
  · intro hdet
    simp only [CreateWorkspace, hbc, hpull, hclone, hdet, if_true]
    simp only [createWorkspaceFromImage]
    split
    · simp
    · split <;> simp
  · intro s hdet
    simp only [CreateWorkspace, hbc, hpull, hclone, hdet, if_true]
    simp

theorem C5_witness :
    (CreateWorkspace optsUnknownBuilder).err =
      some ("unknown builder type: " ++ "mystery") ∧
    Step.detect ∈ (CreateWorkspace optsUnknownBuilder).steps := by
  have h := C5_builder_type_dispatch optsUnknownBuilder rfl rfl rfl
  exact ⟨(h.2.2.2 "mystery" rfl).1, h.1⟩

/-- C8: for every initial suggestion and every finite list of existing
names, GetSuggestedName returns a name not contained in the list; it
returns the suggestion itself when that is not in the list, and
otherwise the suggestion suffixed with the smallest decimal index
greater than or equal to 2 whose suffixed name is absent from the
list. -/
theorem C8_get_suggested_name_least_free (s : String) (names : List String) :
    GetSuggestedName s names ∉ names ∧
    (s ∉ names → GetSuggestedName s names = s) ∧
    (s ∈ names → ∀ i, 2 ≤ i → (s ++ toString i) ∉ names →
      (∀ j, 2 ≤ j → j < i → (s ++ toString j) ∈ names) →
      GetSuggestedName s names = s ++ toString i) := by
  have hex : ∃ k, (s ++ Nat.repr (2 + k)) ∉ names := by
    obtain ⟨k, _, hk⟩ := exists_free_suffix s names
    exact ⟨k, hk⟩
  set k0 := Nat.find hex with hk0def
  have hk0free : (s ++ Nat.repr (2 + k0)) ∉ names := Nat.find_spec hex
  have hk0min : ∀ j, j < k0 → (s ++ Nat.repr (2 + j)) ∈ names := by
    intro j hj
    have := Nat.find_min hex hj
    exact not_not.mp this
  have hk0bound : k0 < names.length + 1 := by
    obtain ⟨k, hkb, hkfree⟩ := exists_free_suffix s names
    have : k0 ≤ k := Nat.find_min' hex hkfree
    omega
  have hloop : suggestLoop s names (names.length + 1) 2 = s ++ Nat.repr (2 + k0) :=
    suggestLoop_spec s names (names.length + 1) 2 k0 hk0bound hk0free hk0min
  refine ⟨?_, ?_, ?_⟩
  · by_cases hs : s ∈ names
    · rw [GetSuggestedName, if_pos hs, hloop]
      exact hk0free
    · rw [GetSuggestedName, if_neg hs]
      exact hs
  · intro hs
    rw [GetSuggestedName, if_neg hs]
  · intro hs i h2 hfree hocc
    have hle : i ≤ 2 + k0 := by
      by_contra hgt
      have hmem := hocc (2 + k0) (by omega) (by omega)
      rw [toString_nat_eq_repr] at hmem
      exact hk0free hmem
    have hge : 2 + k0 ≤ i := by
      by_contra hlt
      have hj : i - 2 < k0 := by omega
      have hmem := hk0min (i - 2) hj
      have heq : 2 + (i - 2) = i := by omega
      rw [heq] at hmem
      rw [toString_nat_eq_repr] at hfree
      exact hfree hmem
    have hieq : i = 2 + k0 := by omega
    rw [GetSuggestedName, if_pos hs, hloop, hieq, toString_nat_eq_repr]

theorem C8_witness :
    GetSuggestedName "a" ["a", "a2"] = "a" ++ toString 3 :=
  (C8_get_suggested_name_least_free "a" ["a", "a2"]).2.2 (by decide) 3 (by decide)
    (by decide)
    (fun j h2 h3 => by
      interval_cases j
      decide)

end Daytona
